import Mathlib

/-
Verification of the chat-driven movie recommendation backend.

The development shallowly embeds the JavaScript source:
  * `extractSignalsWith` models `extractSignals` of src/routes/chat.routes.js
    (English canonical labels) and of the near-duplicate chat route variant
    (Spanish canonical labels); regex tests are modelled character-exactly on
    ASCII text (JS `\s` is modelled by its ASCII members, which covers every
    input appearing in the specification's examples).
  * `postMessage`, `listMessagesAuth`, `listMessagesNoAuth` and
    `getRecommendations` model the route handlers, with the MySQL store
    embedded as in-memory lists; `ORDER BY created_at ASC` over an append-only
    table is modelled by stored list order, `ORDER BY rate DESC` by an
    insertion sort on the rate column, and SQL `LIKE '%g%'` by substring
    containment (genre labels contain no wildcard characters).
-/

namespace MovieRec

/-! ## Characters and JS-style string matching -/

/-- ASCII members of the JS regex class `\s`. -/
def isWsp (c : Char) : Bool :=
  c == ' ' || c == '\t' || c == '\n' || c == '\r' || c == '\x0b' || c == '\x0c'

/-- Lowercased character list of a string, modelling `text.toLowerCase()`
(ASCII range, which covers all keyword tables and example inputs). -/
def lowerStr (s : String) : List Char :=
  s.toList.map Char.toLower

/-- Does `w` occur at the head of `t`? (character-exact prefix test). -/
def headMatches : List Char → List Char → Bool
  | [], _ => true
  | _ :: _, [] => false
  | a :: w, b :: t => a == b && headMatches w t

/-- JS `t.includes(w)`: `w` occurs somewhere in `t` as a contiguous substring. -/
def containsSub (t w : List Char) : Bool :=
  match t with
  | [] => headMatches w []
  | _ :: rest => headMatches w t || containsSub rest w

/-- Does the word `w` occur at the head of `t` followed by whitespace or the
end of the text? Models the `w(\s|$)` tail of the polarity regexes. -/
def wordBoundedHere (w t : List Char) : Bool :=
  match w, t with
  | [], [] => true
  | [], c :: _ => isWsp c
  | _ :: _, [] => false
  | a :: w, b :: t => a == b && wordBoundedHere w t

/-- Scan of `t` for a whitespace-bounded occurrence of `w`; `prevOk` records
whether the current position is at the start of the text or preceded by
whitespace. Models `(^|\s)w(\s|$)`. -/
def boundedScan (w : List Char) (t : List Char) (prevOk : Bool) : Bool :=
  match t with
  | [] => prevOk && wordBoundedHere w []
  | c :: rest => (prevOk && wordBoundedHere w (c :: rest)) || boundedScan w rest (isWsp c)

/-- JS `/(^|\s)w(\s|$)/.test(t)` for a single alternative `w`. -/
def hasBoundedWord (t w : List Char) : Bool :=
  boundedScan w t true

/-- Strip `key` from the head of `t`; `none` when `key` is not a prefix. -/
def stripHead : List Char → List Char → Option (List Char)
  | [], t => some t
  | _ :: _, [] => none
  | a :: k, b :: t => if a == b then stripHead k t else none

/-- Drop leading whitespace. -/
def dropWs : List Char → List Char
  | [] => []
  | c :: rest => if isWsp c then dropWs rest else c :: rest

/-- Four leading decimal digits of `t`, if present; models `(\d{4})`. -/
def digits4 : List Char → Option (List Char)
  | a :: b :: c :: d :: _ =>
    if a.isDigit && b.isDigit && c.isDigit && d.isDigit then some [a, b, c, d] else none
  | _ => none

/-- Match `\s+(\d{4})` at the head of `t` (whitespace and digits are disjoint,
so greedy whitespace consumption is exact). -/
def wsThenDigits : List Char → Option (List Char)
  | [] => none
  | c :: rest => if isWsp c then digits4 (dropWs rest) else none

/-- Match `key\s+(\d{4})` at the head of `t`, returning the captured digits. -/
def matchKeyNumAt (key t : List Char) : Option (List Char) :=
  (stripHead key t).bind wsThenDigits

/-- Leftmost match of `key\s+(\d{4})` in `t`: JS `t.match(/key\s+(\d{4})/)`
restricted to the captured digit group. -/
def findKeyNum (key : List Char) (t : List Char) : Option (List Char) :=
  match t with
  | [] => matchKeyNumAt key []
  | c :: rest => matchKeyNumAt key (c :: rest) <|> findKeyNum key rest

/-! ## Signal extraction (`extractSignals`) -/

/-- The four signal types stored in `chat_signals.signal_type`. -/
inductive SignalType
  | like_genre
  | dislike_genre
  | year_min
  | year_max
deriving DecidableEq

/-- String tag of a signal type, as written to the database. -/
def typeStr : SignalType → String
  | .like_genre => "like_genre"
  | .dislike_genre => "dislike_genre"
  | .year_min => "year_min"
  | .year_max => "year_max"

/-- A signal draft as produced by `extractSignals`. Confidence is a decimal
with one fractional digit in the source (0.6, 0.9, 1.0); it is embedded
exactly as a count of tenths (6, 9, 10), which preserves equality and order. -/
structure Signal where
  signal_type : SignalType
  signal_value : String
  confidence10 : Nat
deriving DecidableEq

/-- The JS dedup key `` `${s.signal_type}:${s.signal_value}` ``. -/
def sigKey (s : Signal) : String :=
  typeStr s.signal_type ++ ":" ++ s.signal_value

/-- The `seen`-set filter at the end of `extractSignals`: keep the first
signal for each key, drop later ones. -/
def dedupByKey : List Signal → List String → List Signal
  | [], _ => []
  | s :: rest, seen =>
    if sigKey s ∈ seen then dedupByKey rest seen
    else s :: dedupByKey rest (sigKey s :: seen)

/-- Positive polarity markers. -/
def likeWords : List String := ["like", "love", "enjoy", "prefer"]

/-- Negative polarity markers. -/
def dislikeWords : List String := ["dislike", "hate", "don\x27t like", "do not like"]

/-- The `like` flag: `/(^|\s)(like|love|enjoy|prefer)(\s|$)/i.test(text)`. -/
def polarityLike (t : List Char) : Bool :=
  likeWords.any fun w => hasBoundedWord t w.toList

/-- The `dislike` flag. -/
def polarityDislike (t : List Char) : Bool :=
  dislikeWords.any fun w => hasBoundedWord t w.toList

/-- `genreMap` of src/routes/chat.routes.js (key, canonical label). -/
def genreMap : List (String × String) :=
  [("action", "Action"), ("sci-fi", "Sci-Fi"), ("science fiction", "Sci-Fi"),
   ("comedy", "Comedy"), ("romance", "Romance"), ("horror", "Horror"),
   ("drama", "Drama"), ("thriller", "Thriller"), ("animation", "Animation")]

/-- `genreMap` of the duplicated chat route variant (Spanish canonical labels). -/
def genreMapB : List (String × String) :=
  [("action", "Acción"), ("sci-fi", "Ciencia ficción"),
   ("science fiction", "Ciencia ficción"), ("comedy", "Comedia"),
   ("drama", "Drama"), ("thriller", "Thriller"), ("romance", "Romance"),
   ("animation", "Animación"), ("adventure", "Aventuras")]

/-- The genre loop: one signal per map entry whose key occurs in the lowered
text, polarity and confidence fixed once for the whole call. -/
def genreSigsOf (gmap : List (String × String)) (t : List Char)
    (lk dk : Bool) : List Signal :=
  (gmap.filter fun g => containsSub t g.1.toList).map fun g =>
    { signal_type := if dk then .dislike_genre else .like_genre
      signal_value := g.2
      confidence10 := if lk || dk then 9 else 6 }

/-- `afterMatch`: `/after\s+(\d{4})/i || /since\s+(\d{4})/i || /from\s+(\d{4})/i`. -/
def yearMinMatch (t : List Char) : Option (List Char) :=
  findKeyNum "after".toList t <|> findKeyNum "since".toList t <|> findKeyNum "from".toList t

/-- `beforeMatch`: `/before\s+(\d{4})/i || /until\s+(\d{4})/i`. -/
def yearMaxMatch (t : List Char) : Option (List Char) :=
  findKeyNum "before".toList t <|> findKeyNum "until".toList t

/-- The optional `year_min` signal. -/
def yearMinSig (t : List Char) : List Signal :=
  match yearMinMatch t with
  | some ds => [{ signal_type := .year_min, signal_value := String.mk ds, confidence10 := 10 }]
  | none => []

/-- The optional `year_max` signal. -/
def yearMaxSig (t : List Char) : List Signal :=
  match yearMaxMatch t with
  | some ds => [{ signal_type := .year_max, signal_value := String.mk ds, confidence10 := 10 }]
  | none => []

/-- `extractSignals`, parameterized by the genre table (the two route variants
differ only in canonical labels). -/
def extractSignalsWith (gmap : List (String × String)) (text : String) : List Signal :=
  let t := lowerStr text
  dedupByKey
    (genreSigsOf gmap t (polarityLike t) (polarityDislike t)
      ++ yearMinSig t ++ yearMaxSig t) []

/-- `extractSignals` of src/routes/chat.routes.js (the module mounted at
`/api/chat` by the application entry point). -/
def extractSignals (text : String) : List Signal :=
  extractSignalsWith genreMap text

/-- `extractSignals` of the duplicated chat route variant. -/
def extractSignalsB (text : String) : List Signal :=
  extractSignalsWith genreMapB text

/-! ## Data model (tables of the MySQL store) -/

/-- A `chat_sessions` row. -/
structure ChatSession where
  session_id : Nat
  user_id : Nat
  title : String
deriving DecidableEq

/-- A `chat_messages` row; `created_at` is the storage timestamp. -/
structure ChatMessage where
  message_id : Nat
  session_id : Nat
  user_id : Nat
  role : String
  content : String
  created_at : Nat
deriving DecidableEq

/-- A `chat_signals` row. -/
structure StoredSignal where
  session_id : Nat
  user_id : Nat
  message_id : Nat
  signal_type : SignalType
  signal_value : String
  confidence10 : Nat
  created_at : Nat
deriving DecidableEq

/-- A `movies` row; `rate10` embeds the DECIMAL rating exactly in tenths
(order- and equality-preserving). -/
structure Movie where
  movie_id : Nat
  main_title : String
  year_published : Nat
  rate10 : Nat
  genres : String
deriving DecidableEq

/-- A `ratings` row (score in tenths as well). -/
structure Rating where
  user_id : Nat
  movie_id : Nat
  rating_score10 : Nat
deriving DecidableEq

/-- The persistent store. Tables are append-only lists; `clock` supplies
strictly increasing `created_at` timestamps, and `nextMessageId` the
auto-increment message key. -/
structure Db where
  sessions : List ChatSession
  messages : List ChatMessage
  signals : List StoredSignal
  movies : List Movie
  ratings : List Rating
  nextMessageId : Nat
  clock : Nat
deriving DecidableEq

/-- Outcome categories surfaced by the route handlers. -/
inductive ErrKind
  | badRequest
  | notFound
  | forbidden
deriving DecidableEq

instance {ε α : Type} [DecidableEq ε] [DecidableEq α] : DecidableEq (Except ε α) :=
  fun a b =>
    match a, b with
    | .error e, .error f => decidable_of_iff (e = f) (by simp)
    | .ok x, .ok y => decidable_of_iff (x = y) (by simp)
    | .error _, .ok _ => .isFalse fun h => Except.noConfusion h
    | .ok _, .error _ => .isFalse fun h => Except.noConfusion h

/-- `SELECT ... FROM chat_signals WHERE session_id=? ORDER BY created_at ASC`:
the signals table is append-only with increasing timestamps, so creation
order is stored order. -/
def signalsOfSession (db : Db) (sessionId : Nat) : List StoredSignal :=
  db.signals.filter fun s => s.session_id == sessionId

/-- `SELECT ... FROM chat_messages WHERE session_id=? ORDER BY created_at ASC`
under the same append-only reading. -/
def messagesOfSession (db : Db) (sessionId : Nat) : List ChatMessage :=
  db.messages.filter fun m => m.session_id == sessionId

/-- `SELECT session_id, user_id FROM chat_sessions WHERE session_id=?`. -/
def findSession (db : Db) (sessionId : Nat) : Option ChatSession :=
  db.sessions.find? fun s => s.session_id == sessionId

/-! ## The recommendation fold and query -/

/-- The `basis` object assembled by the recommendations handler. `yearMin` and
`yearMax` start as `null` (`none`) and are overwritten with the numeric parse
of each year signal encountered. -/
structure RecBasis where
  likeGenres : List String
  dislikeGenres : List String
  yearMin : Option Nat
  yearMax : Option Nat
deriving DecidableEq

/-- One iteration of the signal-parsing loop of the recommendations handler:
genre values are pushed (no deduplication in the source), year values are
overwritten (`yearMin = Number(r.signal_value)`). -/
def foldStep (b : RecBasis) (s : StoredSignal) : RecBasis :=
  match s.signal_type with
  | .like_genre => { b with likeGenres := b.likeGenres ++ [s.signal_value] }
  | .dislike_genre => { b with dislikeGenres := b.dislikeGenres ++ [s.signal_value] }
  | .year_min => { b with yearMin := s.signal_value.toNat? }
  | .year_max => { b with yearMax := s.signal_value.toNat? }

/-- The whole signal-parsing loop. -/
def foldSignals (sigs : List StoredSignal) : RecBasis :=
  sigs.foldl foldStep { likeGenres := [], dislikeGenres := [], yearMin := none, yearMax := none }

/-- JS truthiness of a year bound: `null` and `0` are falsy. -/
def truthyYear : Option Nat → Bool
  | none => false
  | some n => !(n == 0)

/-- `m.genres LIKE '%g%'` (genre labels contain no SQL wildcard characters,
so LIKE is substring containment). -/
def genresHas (m : Movie) (g : String) : Bool :=
  containsSub m.genres.toList g.toList

/-- The dynamically assembled WHERE clause of the recommendations query. -/
def moviePasses (b : RecBasis) (userId : Nat) (ratings : List Rating) (m : Movie) : Bool :=
  (!truthyYear b.yearMin || decide (b.yearMin.getD 0 ≤ m.year_published))
    && (!truthyYear b.yearMax || decide (m.year_published ≤ b.yearMax.getD 0))
    && (b.likeGenres.isEmpty || b.likeGenres.any (genresHas m))
    && (b.dislikeGenres.all fun g => !genresHas m g)
    && (ratings.all fun r => !(r.user_id == userId && r.movie_id == m.movie_id))

/-- Insertion step of the `ORDER BY rate DESC` embedding. -/
def insertMovie (m : Movie) : List Movie → List Movie
  | [] => [m]
  | x :: xs => if x.rate10 < m.rate10 then m :: x :: xs else x :: insertMovie m xs

/-- Deterministic embedding of `ORDER BY m.rate DESC` (the SQL statement names
no secondary sort key; this model fixes one deterministic order). -/
def sortMoviesDesc : List Movie → List Movie
  | [] => []
  | m :: rest => insertMovie m (sortMoviesDesc rest)

/-- GET `/sessions/:sessionId/recommendations`. `limitQ` is the parsed
`limit` query parameter (`none` when absent or empty);
`limit = Math.min(Number(req.query.limit || 20), 50)`. -/
def getRecommendations (db : Db) (sessionId userId : Nat) (limitQ : Option Nat) :
    Except ErrKind (RecBasis × List Movie) :=
  let limit := min (limitQ.getD 20) 50
  if userId == 0 then .error .badRequest
  else
    match findSession db sessionId with
    | none => .error .notFound
    | some s =>
      if !(s.user_id == userId) then .error .forbidden
      else
        let b := foldSignals (signalsOfSession db sessionId)
        if b.likeGenres.isEmpty && !truthyYear b.yearMin && !truthyYear b.yearMax then
          .ok (b, (sortMoviesDesc db.movies).take limit)
        else
          .ok (b, (sortMoviesDesc (db.movies.filter (moviePasses b userId db.ratings))).take limit)

/-- The recommendations handler as a state transformer: it issues only
SELECT statements, so the store is returned unchanged. -/
def getRecommendationsOp (db : Db) (sessionId userId : Nat) (limitQ : Option Nat) :
    Except ErrKind (RecBasis × List Movie) × Db :=
  (getRecommendations db sessionId userId limitQ, db)

/-! ## Message append and message listing -/

/-- POST `/sessions/:sessionId/messages`: validation, session lookup,
ownership check, message insert, signal extraction and bulk signal insert.
Models the variant mounted with `requireAuth`; the duplicated variant differs
only in how `userId` is supplied. -/
def postMessage (db : Db) (sessionId userId : Nat) (message : String) :
    Except ErrKind (Nat × List Signal) × Db :=
  if userId == 0 || message == "" then (.error .badRequest, db)
  else
    match findSession db sessionId with
    | none => (.error .notFound, db)
    | some s =>
      if !(s.user_id == userId) then (.error .forbidden, db)
      else
        let mid := db.nextMessageId
        let msg : ChatMessage :=
          { message_id := mid, session_id := sessionId, user_id := userId,
            role := "user", content := message, created_at := db.clock }
        let sigs := extractSignals message
        let stored := sigs.map fun g =>
          { session_id := sessionId, user_id := userId, message_id := mid,
            signal_type := g.signal_type, signal_value := g.signal_value,
            confidence10 := g.confidence10, created_at := db.clock + 1 : StoredSignal }
        (.ok (mid, sigs),
          { db with
              messages := db.messages ++ [msg],
              signals := db.signals ++ stored,
              nextMessageId := mid + 1,
              clock := db.clock + 2 })

/-- GET `/sessions/:sessionId/messages`, variant with session lookup and
ownership check before reading messages. -/
def listMessagesAuth (db : Db) (sessionId userId : Nat) :
    Except ErrKind (List ChatMessage) :=
  match findSession db sessionId with
  | none => .error .notFound
  | some s =>
    if !(s.user_id == userId) then .error .forbidden
    else .ok (messagesOfSession db sessionId)

/-- GET `/sessions/:sessionId/messages` of src/routes/chat.routes.js: no
session lookup and no ownership check — the session's messages are returned
to any caller, and the handler takes no acting-user input at all. -/
def listMessagesNoAuth (db : Db) (sessionId : Nat) : List ChatMessage :=
  messagesOfSession db sessionId

/-! ## Concrete stores used by witnesses and counterexamples -/

/-- Store with one session (owner 7), a dislike-only signal, one catalog movie
already rated by user 7. -/
def exDbC1x : Db :=
  { sessions := [⟨1, 7, "t"⟩], messages := [],
    signals := [⟨1, 7, 1, .dislike_genre, "Horror", 9, 0⟩],
    movies := [⟨5, "M", 2000, 80, "Action"⟩],
    ratings := [⟨7, 5, 90⟩], nextMessageId := 2, clock := 5 }

/-- Store with a liked-genre signal, one unrated matching movie and one rated
matching movie. -/
def exDbC1 : Db :=
  { sessions := [⟨1, 7, "t"⟩], messages := [],
    signals := [⟨1, 7, 1, .like_genre, "Action", 9, 0⟩],
    movies := [⟨1, "A", 2020, 70, "Action"⟩, ⟨2, "B", 2021, 90, "Action"⟩],
    ratings := [⟨7, 2, 90⟩], nextMessageId := 2, clock := 5 }

/-- Fresh store with a single empty session owned by user 7. -/
def exDbC2 : Db :=
  { sessions := [⟨1, 7, "t"⟩], messages := [], signals := [],
    movies := [], ratings := [], nextMessageId := 1, clock := 0 }

/-- State after posting "I like action" once to session 1. -/
def stC2a : Db := (postMessage exDbC2 1 7 "I like action").2

/-- State after posting "I like action" twice to session 1. -/
def stC2b : Db := (postMessage stC2a 1 7 "I like action").2

/-- Cold-start store whose only signal is a dislike of Horror, with a Horror
movie in the catalog. -/
def exDbC4x : Db :=
  { sessions := [⟨1, 7, "t"⟩], messages := [],
    signals := [⟨1, 7, 1, .dislike_genre, "Horror", 9, 0⟩],
    movies := [⟨3, "M", 1999, 70, "Horror"⟩],
    ratings := [], nextMessageId := 2, clock := 5 }

/-- Signal-free store with two movies of distinct ratings. -/
def exDbC4 : Db :=
  { sessions := [⟨1, 7, "t"⟩], messages := [], signals := [],
    movies := [⟨1, "A", 2001, 60, "Drama"⟩, ⟨2, "B", 2002, 95, "Comedy"⟩],
    ratings := [], nextMessageId := 1, clock := 0 }

/-- Store with a session owned by user 7 holding one message. -/
def exDbC7 : Db :=
  { sessions := [⟨1, 7, "t"⟩],
    messages := [⟨1, 1, 7, "user", "hello", 0⟩],
    signals := [], movies := [], ratings := [], nextMessageId := 2, clock := 1 }

end MovieRec

namespace MovieRec

/-! ## Helper lemmas: deduplication -/

theorem mem_of_mem_dedupByKey {s : Signal} :
    ∀ (l : List Signal) (seen : List String), s ∈ dedupByKey l seen → s ∈ l
  | [], _, h => by simp [dedupByKey] at h
  | a :: rest, seen, h => by
    by_cases hk : sigKey a ∈ seen
    · simp only [dedupByKey, if_pos hk] at h
      exact List.mem_cons_of_mem _ (mem_of_mem_dedupByKey rest seen h)
    · simp only [dedupByKey, if_neg hk] at h
      rcases List.mem_cons.1 h with rfl | h
      · exact List.mem_cons_self _ _
      · exact List.mem_cons_of_mem _ (mem_of_mem_dedupByKey rest _ h)

theorem key_not_seen_of_mem_dedupByKey {s : Signal} :
    ∀ (l : List Signal) (seen : List String), s ∈ dedupByKey l seen → sigKey s ∉ seen
  | [], _, h => by simp [dedupByKey] at h
  | a :: rest, seen, h => by
    by_cases hk : sigKey a ∈ seen
    · simp only [dedupByKey, if_pos hk] at h
      exact key_not_seen_of_mem_dedupByKey rest seen h
    · simp only [dedupByKey, if_neg hk] at h
      rcases List.mem_cons.1 h with rfl | h
      · exact hk
      · intro hmem
        exact key_not_seen_of_mem_dedupByKey rest _ h (List.mem_cons_of_mem _ hmem)

theorem dedupByKey_pairwise :
    ∀ (l : List Signal) (seen : List String),
      (dedupByKey l seen).Pairwise fun a b => sigKey a ≠ sigKey b
  | [], seen => by simp [dedupByKey]
  | a :: rest, seen => by
    by_cases hk : sigKey a ∈ seen
    · simpa [dedupByKey, hk] using dedupByKey_pairwise rest seen
    · simp only [dedupByKey, if_neg hk]
      refine List.pairwise_cons.2 ⟨?_, dedupByKey_pairwise rest _⟩
      intro b hb he
      exact key_not_seen_of_mem_dedupByKey rest _ hb (he ▸ List.mem_cons_self _ _)

/-- Every extraction output is duplicate-free on the JS dedup key. -/
theorem extract_pairwise_key (gmap : List (String × String)) (text : String) :
    (extractSignalsWith gmap text).Pairwise fun a b => sigKey a ≠ sigKey b :=
  dedupByKey_pairwise _ _

/-- Every extraction output is duplicate-free on the (type, value) pair. -/
theorem extract_pairwise_pair (gmap : List (String × String)) (text : String) :
    (extractSignalsWith gmap text).Pairwise
      fun a b => ¬(a.signal_type = b.signal_type ∧ a.signal_value = b.signal_value) := by
  refine (extract_pairwise_key gmap text).imp ?_
  intro a b hne hab
  exact hne (by simp [sigKey, hab.1, hab.2])

/-! ## Helper lemmas: the rating sort -/

theorem mem_insertMovie (x m : Movie) (l : List Movie) :
    x ∈ insertMovie m l ↔ x = m ∨ x ∈ l := by
  induction l with
  | nil => simp [insertMovie]
  | cons a t ih =>
    by_cases h : a.rate10 < m.rate10
    · simp [insertMovie, h, List.mem_cons, or_comm, or_assoc, or_left_comm]
    · simp [insertMovie, h, List.mem_cons, ih, or_comm, or_assoc, or_left_comm]

theorem mem_sortMoviesDesc (x : Movie) (l : List Movie) :
    x ∈ sortMoviesDesc l ↔ x ∈ l := by
  induction l with
  | nil => simp [sortMoviesDesc]
  | cons a t ih => simp [sortMoviesDesc, mem_insertMovie, ih, List.mem_cons]

theorem insertMovie_pairwise (m : Movie) (l : List Movie)
    (h : l.Pairwise fun a b => b.rate10 ≤ a.rate10) :
    (insertMovie m l).Pairwise fun a b => b.rate10 ≤ a.rate10 := by
  induction l with
  | nil => simp [insertMovie]
  | cons a t ih =>
    rcases List.pairwise_cons.1 h with ⟨ha, ht⟩
    by_cases hc : a.rate10 < m.rate10
    · simp only [insertMovie, if_pos hc]
      refine List.pairwise_cons.2 ⟨?_, h⟩
      intro y hy
      rcases List.mem_cons.1 hy with rfl | hy
      · exact Nat.le_of_lt hc
      · exact le_trans (ha y hy) (Nat.le_of_lt hc)
    · simp only [insertMovie, if_neg hc]
      refine List.pairwise_cons.2 ⟨?_, ih ht⟩
      intro y hy
      rcases (mem_insertMovie y m t).1 hy with rfl | hy
      · exact Nat.le_of_not_lt hc
      · exact ha y hy

theorem sortMoviesDesc_pairwise (l : List Movie) :
    (sortMoviesDesc l).Pairwise fun a b => b.rate10 ≤ a.rate10 := by
  induction l with
  | nil => simp [sortMoviesDesc]
  | cons a t ih => exact insertMovie_pairwise a _ ih

/-! ## Helper lemmas: the signal fold -/

theorem foldl_foldStep_like :
    ∀ (l : List StoredSignal) (b : RecBasis),
      (l.foldl foldStep b).likeGenres =
        b.likeGenres ++
          ((l.filter fun s => s.signal_type == SignalType.like_genre).map
            fun s => s.signal_value)
  | [], b => by simp
  | s :: t, b => by
    cases hty : s.signal_type <;>
      simp +decide [foldStep, hty, foldl_foldStep_like t, List.filter_cons]

theorem foldl_foldStep_dislike :
    ∀ (l : List StoredSignal) (b : RecBasis),
      (l.foldl foldStep b).dislikeGenres =
        b.dislikeGenres ++
          ((l.filter fun s => s.signal_type == SignalType.dislike_genre).map
            fun s => s.signal_value)
  | [], b => by simp
  | s :: t, b => by
    cases hty : s.signal_type <;>
      simp +decide [foldStep, hty, foldl_foldStep_dislike t, List.filter_cons]

/-! ## Claim theorems -/

/-- C1 (counterexample): a session whose only stored signal is a
`dislike_genre` signal takes the cold-start branch, which skips the
rated-movie exclusion: for store `exDbC1x` the result for user 7 is exactly
the movie with id 5, which user 7 has already rated — so the movie list
returned by GetRecommendations is not always disjoint from the caller's rated
movies when the session has at least one stored signal. -/
theorem getRecs_rated_leak_cex :
    getRecommendations exDbC1x 1 7 none =
      .ok ({ likeGenres := [], dislikeGenres := ["Horror"], yearMin := none, yearMax := none },
        [⟨5, "M", 2000, 80, "Action"⟩]) ∧
    exDbC1x.ratings.any (fun r => r.user_id == 7 && r.movie_id == 5) = true ∧
    (signalsOfSession exDbC1x 1).length = 1 := by decide

/-- C1 (amended): whenever GetRecommendations succeeds and the folded basis is
not the cold-start basis (some liked genre or truthy year bound is present),
no returned movie carries a rating record by the requesting user; for
cold-start sessions — in particular dislike-only sessions — the exclusion is
skipped. -/
theorem getRecs_excludes_rated (db : Db) (sid uid : Nat) (limq : Option Nat)
    (b : RecBasis) (ms : List Movie)
    (h : getRecommendations db sid uid limq = .ok (b, ms))
    (hnc : (b.likeGenres.isEmpty && !truthyYear b.yearMin && !truthyYear b.yearMax) = false) :
    ∀ m ∈ ms, ∀ r ∈ db.ratings, ¬(r.user_id = uid ∧ r.movie_id = m.movie_id) := by
  unfold getRecommendations at h
  simp only [] at h
  split at h
  · exact absurd h (by simp)
  · split at h
    · exact absurd h (by simp)
    · split at h
      · exact absurd h (by simp)
      · split at h
        · rename_i hcold
          rw [Except.ok.injEq, Prod.mk.injEq] at h
          rw [← h.1] at hnc
          rw [hcold] at hnc
          exact absurd hnc (by simp)
        · rw [Except.ok.injEq, Prod.mk.injEq] at h
          obtain ⟨hb, hms⟩ := h
          intro m hm r hr hpair
          have hm1 : m ∈ sortMoviesDesc (db.movies.filter (moviePasses b uid db.ratings)) := by
            rw [← hb]
            exact (List.take_sublist _ _).subset (by rw [← hms] at hm; exact hm)
          have hm2 : m ∈ db.movies.filter (moviePasses b uid db.ratings) :=
            (mem_sortMoviesDesc _ _).1 hm1
          have hpass : moviePasses b uid db.ratings m = true := (List.mem_filter.1 hm2).2
          simp only [moviePasses, Bool.and_eq_true] at hpass
          have hall := hpass.2
          rw [List.all_eq_true] at hall
          have := hall r hr
          simp only [Bool.not_eq_eq_eq_not, Bool.not_true, Bool.and_eq_false_iff] at this
          rcases this with h1 | h2
          · exact absurd hpair.1 (by simpa using h1)
          · exact absurd hpair.2 (by simpa using h2)

/-- C1 (witness): instantiation of the amended theorem on `exDbC1`, where the
non-cold result is the single unrated Action movie (id 1) and the rating
record (user 7, movie 2) does not point at it. -/
theorem getRecs_excludes_rated_witness : ¬((7 : Nat) = 7 ∧ (2 : Nat) = 1) :=
  getRecs_excludes_rated exDbC1 1 7 none
    { likeGenres := ["Action"], dislikeGenres := [], yearMin := none, yearMax := none }
    [⟨1, "A", 2020, 70, "Action"⟩] (by decide) (by decide)
    ⟨1, "A", 2020, 70, "Action"⟩ (by decide) ⟨7, 2, 90⟩ (by decide)

/-- C2 (counterexample): posting "I like action" twice to the same session
stores two signals with the identical (like_genre, "Action") pair — the
per-call dedup does not drop duplicates arriving in a later extraction, so
the session-level invariant fails. -/
theorem postMessage_cross_call_dup_cex :
    (signalsOfSession stC2b 1).map (fun s => (s.signal_type, s.signal_value)) =
      [(.like_genre, "Action"), (.like_genre, "Action")] ∧
    ¬ List.Nodup ((signalsOfSession stC2b 1).map fun s => (s.signal_type, s.signal_value)) := by
  decide

/-- C2 (amended): within a single successful PostMessage call, the list of
inserted signals contains no two entries sharing the same
(signal_type, signal_value) pair — duplicates inside one extraction are
dropped before storage; across separate PostMessage calls duplicates
accumulate. -/
theorem postMessage_inserted_pairwise (db : Db) (sid uid : Nat) (msg : String)
    (mid : Nat) (sigs : List Signal)
    (h : (postMessage db sid uid msg).1 = .ok (mid, sigs)) :
    sigs.Pairwise fun a b =>
      ¬(a.signal_type = b.signal_type ∧ a.signal_value = b.signal_value) := by
  unfold postMessage at h
  split at h
  · exact absurd h (by simp)
  · split at h
    · exact absurd h (by simp)
    · split at h
      · exact absurd h (by simp)
      · simp only [Except.ok.injEq, Prod.mk.injEq] at h
        rw [← h.2]
        exact extract_pairwise_pair genreMap msg

/-- C2 (witness): instantiation of the amended theorem on the first post of
"I like action" to the fresh store `exDbC2`. -/
theorem postMessage_inserted_pairwise_witness :
    List.Pairwise
      (fun a b : Signal =>
        ¬(a.signal_type = b.signal_type ∧ a.signal_value = b.signal_value))
      [⟨.like_genre, "Action", 9⟩] :=
  postMessage_inserted_pairwise exDbC2 1 7 "I like action" 1
    [⟨.like_genre, "Action", 9⟩] (by decide)

/-- C3 (counterexample): the fold pushes genre values without any defensive
re-deduplication — two identical like_genre signals produce the duplicated
accumulation ["Action", "Action"], which is not a duplicate-free set. -/
theorem foldSignals_dup_cex :
    (foldSignals [⟨1, 7, 1, .like_genre, "Action", 9, 0⟩,
        ⟨1, 7, 2, .like_genre, "Action", 9, 1⟩]).likeGenres = ["Action", "Action"] ∧
    ¬ (foldSignals [⟨1, 7, 1, .like_genre, "Action", 9, 0⟩,
        ⟨1, 7, 2, .like_genre, "Action", 9, 1⟩]).likeGenres.Nodup := by decide

/-- C3 (amended): the GetRecommendations fold accumulates like_genre and
dislike_genre values in insertion order without deduplication (the value
lists are exactly the filtered signal values in creation order, duplicates
retained), while year_min and year_max are overwritten by each later
occurrence (appending a year signal makes its parsed value the final bound,
regardless of any earlier bound — not a min/max merge). -/
theorem foldSignals_spec :
    (∀ sigs : List StoredSignal,
      (foldSignals sigs).likeGenres =
        ((sigs.filter fun s => s.signal_type == SignalType.like_genre).map
          fun s => s.signal_value)) ∧
    (∀ sigs : List StoredSignal,
      (foldSignals sigs).dislikeGenres =
        ((sigs.filter fun s => s.signal_type == SignalType.dislike_genre).map
          fun s => s.signal_value)) ∧
    (∀ (sigs : List StoredSignal) (sid uid mid c t : Nat) (v : String),
      (foldSignals (sigs ++ [⟨sid, uid, mid, .year_min, v, c, t⟩])).yearMin = v.toNat?) ∧
    (∀ (sigs : List StoredSignal) (sid uid mid c t : Nat) (v : String),
      (foldSignals (sigs ++ [⟨sid, uid, mid, .year_max, v, c, t⟩])).yearMax = v.toNat?) := by
  refine ⟨fun sigs => ?_, fun sigs => ?_, fun sigs sid uid mid c t v => ?_,
    fun sigs sid uid mid c t v => ?_⟩
  · simpa using foldl_foldStep_like sigs _
  · simpa using foldl_foldStep_dislike sigs _
  · unfold foldSignals
    rw [List.foldl_append]
    rfl
  · unfold foldSignals
    rw [List.foldl_append]
    rfl

/-- C4 (counterexample): a dislike-only session is a cold-start session, but
the returned basis echoes the accumulated dislike list — its fields are not
all empty/null as the claim states (and the disliked Horror movie is still
returned). -/
theorem getRecs_cold_basis_cex :
    getRecommendations exDbC4x 1 7 none =
      .ok ({ likeGenres := [], dislikeGenres := ["Horror"], yearMin := none, yearMax := none },
        [⟨3, "M", 1999, 70, "Horror"⟩]) ∧
    ¬(({ likeGenres := [], dislikeGenres := ["Horror"], yearMin := none,
          yearMax := none } : RecBasis).dislikeGenres = []) := by decide

/-- C4 (amended): for an owned session whose fold yields no liked genres and
no truthy year bound, GetRecommendations returns the top `limit` catalog
entries by rating descending (limit = min(limitQ ?? 20, 50)), ignoring
dislike genres and rated-movie exclusion (the result is computed from the
unfiltered catalog), with result length ≤ limit and the folded basis echoed
as-is (empty liked genres, non-truthy year bounds, dislike genres as
accumulated). -/
theorem getRecs_cold_start (db : Db) (sid uid : Nat) (limq : Option Nat) (s : ChatSession)
    (hf : findSession db sid = some s) (ho : s.user_id = uid) (hu : uid ≠ 0)
    (hc : ((foldSignals (signalsOfSession db sid)).likeGenres.isEmpty
            && !truthyYear (foldSignals (signalsOfSession db sid)).yearMin
            && !truthyYear (foldSignals (signalsOfSession db sid)).yearMax) = true) :
    getRecommendations db sid uid limq =
      .ok (foldSignals (signalsOfSession db sid),
            (sortMoviesDesc db.movies).take (min (limq.getD 20) 50)) ∧
    ((sortMoviesDesc db.movies).take (min (limq.getD 20) 50)).length ≤ min (limq.getD 20) 50 ∧
    ((sortMoviesDesc db.movies).take (min (limq.getD 20) 50)).Pairwise
      (fun a b => b.rate10 ≤ a.rate10) := by
  refine ⟨?_, List.length_take_le _ _,
    (sortMoviesDesc_pairwise _).sublist (List.take_sublist _ _)⟩
  unfold getRecommendations
  simp only []
  rw [hf]
  have h0 : (uid == 0) = false := beq_eq_false_iff_ne.2 hu
  have h1 : (!(s.user_id == uid)) = false := by simp [ho]
  simp only [h0, h1, Bool.false_eq_true, if_false, hc, if_true]

/-- C4 (witness): instantiation of the amended theorem on the signal-free
store `exDbC4` with two movies, returned highest rating first. -/
theorem getRecs_cold_start_witness :
    getRecommendations exDbC4 1 7 none =
      .ok (foldSignals (signalsOfSession exDbC4 1),
            (sortMoviesDesc exDbC4.movies).take (min ((none : Option Nat).getD 20) 50)) ∧
    ((sortMoviesDesc exDbC4.movies).take (min ((none : Option Nat).getD 20) 50)).length ≤
      min ((none : Option Nat).getD 20) 50 ∧
    ((sortMoviesDesc exDbC4.movies).take (min ((none : Option Nat).getD 20) 50)).Pairwise
      (fun a b => b.rate10 ≤ a.rate10) :=
  getRecs_cold_start exDbC4 1 7 none ⟨1, 7, "t"⟩ (by decide) rfl (by decide) (by decide)

/-- C5: when the target session exists but belongs to user A and the caller is
a different (well-formed) user B, PostMessage returns ForbiddenError and the
store is returned unchanged — no message and no signal is persisted. -/
theorem postMessage_forbidden_atomic (db : Db) (sid caller : Nat) (msg : String)
    (s : ChatSession) (hmsg : msg ≠ "") (hc : caller ≠ 0)
    (hf : findSession db sid = some s) (hne : s.user_id ≠ caller) :
    postMessage db sid caller msg = (.error .forbidden, db) := by
  unfold postMessage
  have h0 : (caller == 0 || msg == "") = false := by
    simp [beq_eq_false_iff_ne, hc, hmsg]
  rw [h0]
  simp only [Bool.false_eq_true, if_false]
  rw [hf]
  have h1 : (!(s.user_id == caller)) = true := by
    simp [beq_eq_false_iff_ne.2 hne]
  simp only [h1, if_true]

/-- C5 (witness): caller 9 posting to session 1 (owned by user 7) of `exDbC2`
is rejected with Forbidden and the store is unchanged. -/
theorem postMessage_forbidden_atomic_witness :
    postMessage exDbC2 1 9 "hello" = (.error .forbidden, exDbC2) :=
  postMessage_forbidden_atomic exDbC2 1 9 "hello" ⟨1, 7, "t"⟩
    (by decide) (by decide) (by decide) (by decide)

/-- C6: on the input "I hate action movies after 2015" the mounted Extractor
returns exactly the dislike_genre Action signal with confidence 0.9 (9
tenths) followed by the year_min "2015" signal with confidence 1.0 (10
tenths), in that order. -/
theorem extract_hate_action_after_2015 :
    extractSignals "I hate action movies after 2015" =
      [{ signal_type := .dislike_genre, signal_value := "Action", confidence10 := 9 },
       { signal_type := .year_min, signal_value := "2015", confidence10 := 10 }] := by decide

/-- C7 (counterexample): the message-listing handler of
src/routes/chat.routes.js (the module mounted by the entry point) performs no
ownership check — it takes no acting-user input and returns the messages of
session 1 (owned by user 7) unconditionally, while the duplicated variant
returns Forbidden to caller 2 on the same store. -/
theorem listMessages_noauth_cex :
    findSession exDbC7 1 = some ⟨1, 7, "t"⟩ ∧
    listMessagesAuth exDbC7 1 2 = .error .forbidden ∧
    listMessagesNoAuth exDbC7 1 = [⟨1, 1, 7, "user", "hello", 0⟩] := by decide

/-- C7 (amended): the duplicated (requireAuth) variant of list_messages checks
ownership first — a missing session yields NotFound, a session owned by
another user yields Forbidden, and only the owner receives the session's
messages, ascending by creation time provided the message table is (as
guaranteed by append-only writes) timestamp-ascending. -/
theorem listMessages_ownership (db : Db) (sid uid : Nat)
    (hmono : db.messages.Pairwise fun a b => a.created_at ≤ b.created_at) :
    (findSession db sid = none → listMessagesAuth db sid uid = .error .notFound) ∧
    (∀ s : ChatSession, findSession db sid = some s → s.user_id ≠ uid →
      listMessagesAuth db sid uid = .error .forbidden) ∧
    (∀ s : ChatSession, findSession db sid = some s → s.user_id = uid →
      listMessagesAuth db sid uid = .ok (messagesOfSession db sid) ∧
      (messagesOfSession db sid).Pairwise fun a b => a.created_at ≤ b.created_at) := by
  refine ⟨?_, ?_, ?_⟩
  · intro hn
    unfold listMessagesAuth
    rw [hn]
  · intro s hf hne
    unfold listMessagesAuth
    rw [hf]
    have h1 : (!(s.user_id == uid)) = true := by simp [beq_eq_false_iff_ne.2 hne]
    simp only [h1, if_true]
  · intro s hf ho
    refine ⟨?_, hmono.sublist (List.filter_sublist _)⟩
    unfold listMessagesAuth
    rw [hf]
    have h1 : (!(s.user_id == uid)) = false := by simp [ho]
    simp only [h1, Bool.false_eq_true, if_false]

/-- C7 (witness): the owner (user 7) of session 1 in `exDbC7` receives the
session's messages in ascending creation order. -/
theorem listMessages_ownership_witness :
    listMessagesAuth exDbC7 1 7 = .ok (messagesOfSession exDbC7 1) ∧
    (messagesOfSession exDbC7 1).Pairwise fun a b => a.created_at ≤ b.created_at :=
  (listMessages_ownership exDbC7 1 7 (by decide)).2.2 ⟨1, 7, "t"⟩ (by decide) rfl

/-- C8: GetRecommendations issues only reads — as a state transformer it
leaves the store unchanged, and a second call on the resulting store returns
the identical (identically ordered) output. -/
theorem getRecsOp_pure_idempotent (db : Db) (sid uid : Nat) (limq : Option Nat) :
    (getRecommendationsOp db sid uid limq).2 = db ∧
    (getRecommendationsOp (getRecommendationsOp db sid uid limq).2 sid uid limq).1 =
      (getRecommendationsOp db sid uid limq).1 :=
  ⟨rfl, rfl⟩

/-- C9: any text in which no genre keyword occurs as a substring and neither
year regex matches yields the empty signal list (the Extractor is a total
function, so it never fails). -/
theorem extract_no_keyword_empty (text : String)
    (hg : ∀ e ∈ genreMap, containsSub (lowerStr text) e.1.toList = false)
    (h1 : yearMinMatch (lowerStr text) = none)
    (h2 : yearMaxMatch (lowerStr text) = none) :
    extractSignals text = [] := by
  have hfil : (genreMap.filter fun g => containsSub (lowerStr text) g.1.toList) = [] :=
    List.filter_eq_nil_iff.2 fun e he => by rw [hg e he]; simp
  unfold extractSignals extractSignalsWith genreSigsOf yearMinSig yearMaxSig
  simp only []
  rw [hfil, h1, h2]
  simp [dedupByKey]

/-- C9 (witness): "I really hate it" contains a polarity marker but no genre
keyword and no year phrase, and extracts to the empty list. -/
theorem extract_no_keyword_empty_witness : extractSignals "I really hate it" = [] :=
  extract_no_keyword_empty "I really hate it" (by decide) (by decide) (by decide)

/-- C10: in any single extraction call (for either genre table), polarity is
decided once for the whole text, so the output never mixes like_genre and
dislike_genre signals: either no signal is a dislike_genre signal or no
signal is a like_genre signal. -/
theorem extract_polarity_uniform (gmap : List (String × String)) (text : String) :
    (∀ s ∈ extractSignalsWith gmap text, s.signal_type ≠ SignalType.dislike_genre) ∨
    (∀ s ∈ extractSignalsWith gmap text, s.signal_type ≠ SignalType.like_genre) := by
  have hmem : ∀ s ∈ extractSignalsWith gmap text,
      s ∈ genreSigsOf gmap (lowerStr text) (polarityLike (lowerStr text))
            (polarityDislike (lowerStr text)) ∨
      s ∈ yearMinSig (lowerStr text) ∨ s ∈ yearMaxSig (lowerStr text) := by
    intro s hs
    unfold extractSignalsWith at hs
    simp only [] at hs
    have := mem_of_mem_dedupByKey _ _ hs
    simpa [List.mem_append, or_assoc] using this
  have hyearmin : ∀ s ∈ yearMinSig (lowerStr text), s.signal_type = SignalType.year_min := by
    intro s hy
    cases hm : yearMinMatch (lowerStr text) <;> simp [yearMinSig, hm] at hy
    rw [hy]
  have hyearmax : ∀ s ∈ yearMaxSig (lowerStr text), s.signal_type = SignalType.year_max := by
    intro s hy
    cases hm : yearMaxMatch (lowerStr text) <;> simp [yearMaxSig, hm] at hy
    rw [hy]
  have hgen : ∀ s ∈ genreSigsOf gmap (lowerStr text) (polarityLike (lowerStr text))
      (polarityDislike (lowerStr text)),
      s.signal_type =
        (if polarityDislike (lowerStr text) then SignalType.dislike_genre
         else SignalType.like_genre) := by
    intro s hg
    rcases List.mem_map.1 hg with ⟨g, _, rfl⟩
    rfl
  cases hd : polarityDislike (lowerStr text)
  · left
    intro s hs
    rcases hmem s hs with hg | hy | hy
    · rw [hgen s hg, hd]; simp
    · rw [hyearmin s hy]; simp
    · rw [hyearmax s hy]; simp
  · right
    intro s hs
    rcases hmem s hs with hg | hy | hy
    · rw [hgen s hg, hd]; simp
    · rw [hyearmin s hy]; simp
    · rw [hyearmax s hy]; simp

end MovieRec
